import Mathlib

/-!
Verification of the IoT-Button firmware logic (ESP-IoT-Button.ino).

The source is shallowly embedded: the persisted configuration record,
its line-oriented load/save format, the bounded WiFi connection loop,
the web-portal handlers (save/delete), the notification POST, the boot
mode decision and the inactivity-timeout loop are modelled as pure Lean
functions.  External effects (file system, WiFi stack, HTTP) appear as
explicit parameters or oracles.
-/

namespace IoTButton

/-- The persisted configuration record (`struct Config` in the source):
an ordered list of (ssid, password) pairs, a POST url and a JSON body. -/
structure Config where
  ssids : List (String × String)
  postUrl : String
  jsonBody : String
deriving DecidableEq, Repr

/-- The global `config` value at boot, before `loadConfig` runs. -/
def emptyConfig : Config := { ssids := [], postUrl := "", jsonBody := "" }

/-- C `isspace`: the character class removed by Arduino `String::trim`. -/
def isSpaceC (ch : Char) : Bool :=
  ch = ' ' || ch = '\t' || ch = '\n' || ch = '\x0b' || ch = '\x0c' || ch = '\r'

/-- Arduino `String::trim` on the underlying character list. -/
def trimData (l : List Char) : List Char :=
  ((l.dropWhile isSpaceC).reverse.dropWhile isSpaceC).reverse

/-- Arduino `String::trim`. -/
def trimS (s : String) : String := String.mk (trimData s.data)

/-- Arduino `String::startsWith`. -/
def startsWithS (s pre : String) : Bool := pre.data.isPrefixOf s.data

/-- Arduino `String::substring(n)` (from index `n` to the end). -/
def substrFrom (s : String) (n : Nat) : String := String.mk (s.data.drop n)

/-- Substring test (used only to formalise the spec's
"contains text that parses as an SSID:/URL:/BODY: line" condition). -/
def hasSub (pat : List Char) : List Char → Bool
  | [] => pat.isPrefixOf []
  | ch :: t => pat.isPrefixOf (ch :: t) || hasSub pat t

/-- The parsing loop of `loadConfig`: for each line, trim it; an
`SSID:` line consumes the following raw line as the password (an
absent following line reads as `""`, as `readStringUntil` does at end
of file); `URL:` and `BODY:` lines overwrite the url and body; any
other line is skipped. -/
def parseLines : List String → Config → Config
  | [], c => c
  | l :: rest, c =>
    let line := trimS l
    if startsWithS line "SSID:" then
      match rest with
      | [] => { c with ssids := c.ssids ++ [(substrFrom line 5, trimS "")] }
      | p :: rest2 =>
        parseLines rest2 { c with ssids := c.ssids ++ [(substrFrom line 5, trimS p)] }
    else if startsWithS line "URL:" then
      parseLines rest { c with postUrl := substrFrom line 4 }
    else if startsWithS line "BODY:" then
      parseLines rest { c with jsonBody := substrFrom line 5 }
    else
      parseLines rest c

/-- Split file content at every newline character. -/
def rawLines : List Char → List (List Char)
  | [] => [[]]
  | ch :: rest =>
    let r := rawLines rest
    if ch = '\n' then [] :: r
    else (ch :: r.headD []) :: r.tail

/-- The sequence of lines `readStringUntil('\n')` yields from the file
content: split at newlines; the empty tail after a final newline is
never read because `available()` is false there. -/
def fileLines (s : String) : List String :=
  let ls := (rawLines s.data).map (fun l => String.mk l)
  if s.data.getLast? = some '\n' then ls.dropLast else ls

/-- Model of `loadConfig`: `none` models an absent (or unopenable) config file,
in which case the global config keeps its boot value `emptyConfig`;
otherwise the ssid list is cleared and the file lines are parsed. -/
def loadConfig : Option String → Config
  | none => emptyConfig
  | some content => parseLines (fileLines content) emptyConfig

/-- The `SSID:`/password line pairs `saveConfig` prints. -/
def saveSSIDs : List (String × String) → String
  | [] => ""
  | (s, p) :: rest => "SSID:" ++ s ++ "\n" ++ p ++ "\n" ++ saveSSIDs rest

/-- Model of `saveConfig`: the full file content written (each `printf` appends
its line with a trailing newline). -/
def saveConfig (c : Config) : String :=
  saveSSIDs c.ssids ++ "URL:" ++ c.postUrl ++ "\n" ++ "BODY:" ++ c.jsonBody ++ "\n"

/-- The `SSID:`/password lines of `saveConfig`, as a line list. -/
def ssidLines : List (String × String) → List String
  | [] => []
  | (s, p) :: rest => ("SSID:" ++ s) :: p :: ssidLines rest

/-- All lines `saveConfig` writes, in order. -/
def saveLines (c : Config) : List String :=
  ssidLines c.ssids ++ ["URL:" ++ c.postUrl, "BODY:" ++ c.jsonBody]

/-- Join lines into file content, one trailing newline per line. -/
def joinNL : List (List Char) → List Char
  | [] => []
  | l :: ls => l ++ '\n' :: joinNL ls

/-- File content consisting of the given lines. -/
def linesContent (ls : List String) : String :=
  String.mk (joinNL (ls.map String.data))

/-! ### NetworkAssociator: `connectWiFi` -/

/-- The retry loop of `connectWiFi`: `f i` is the outcome of the
`i`-th `wifiMulti.run()` call; the result pairs the connection outcome
with the number of `run()` calls performed.  The source loops with
`for (int i = 0; i < 3; ++i)`, returning true on the first connected
call and false after the loop. -/
def connectLoop (f : Nat → Bool) : Nat → Nat → Bool × Nat
  | _, 0 => (false, 0)
  | i, fuel + 1 =>
    if f i then (true, 1)
    else
      let r := connectLoop f (i + 1) fuel
      (r.1, r.2 + 1)

/-- Model of `connectWiFi`: registers every candidate with `wifiMulti.addAP`
and then tries `wifiMulti.run()` up to 3 times.  `run` is the oracle
for the underlying association mechanism, indexed by the registered
candidate list and the call count. -/
def connectWiFi (ssids : List (String × String))
    (run : List (String × String) → Nat → Bool) : Bool :=
  (connectLoop (run ssids) 0 3).1

/-- The number of `wifiMulti.run()` attempts `connectWiFi` performs. -/
def connectAttemptCount (ssids : List (String × String))
    (run : List (String × String) → Nat → Bool) : Nat :=
  (connectLoop (run ssids) 0 3).2

/-! ### NotificationSender: `sendPost` -/

/-- Outcome of `sendPost`: an HTTP status (or transport error) code
from `http.POST`, or a skip with no network action. -/
inductive SendResult where
  | status (code : Int)
  | skipped
deriving DecidableEq, Repr

/-- Model of `sendPost`: issues a single POST of `config.jsonBody` to
`config.postUrl` when the device is connected and the url is
non-empty, else does nothing.  `connected` models
`WiFi.status() == WL_CONNECTED`; `post` is the HTTP-client oracle.
The second component lists the (url, body) requests issued. -/
def sendPost (connected : Bool) (c : Config) (post : String → String → Int) :
    SendResult × List (String × String) :=
  if connected && (c.postUrl.length != 0) then
    (SendResult.status (post c.postUrl c.jsonBody), [(c.postUrl, c.jsonBody)])
  else
    (SendResult.skipped, [])

/-! ### LifecycleController: `setup` and `loop` -/

/-- The run mode chosen once per boot. -/
inductive LifecycleState where
  | operating
  | configuring
deriving DecidableEq, Repr

/-- What one boot of `setup` does after `loadConfig`. -/
structure BootResult where
  mode : LifecycleState
  send : Option SendResult
  requests : List (String × String)
  suspended : Bool
  portalStarted : Bool
deriving DecidableEq, Repr

/-- The decision logic of `setup`: if the mode-select pin (GPIO 12)
reads high and `connectWiFi` succeeds, run `sendPost` once and enter
deep sleep; otherwise start the configuration portal (`setupAP`). -/
def setupRun (pinHigh : Bool) (c : Config)
    (run : List (String × String) → Nat → Bool)
    (stillConnected : Bool) (post : String → String → Int) : BootResult :=
  if pinHigh && connectWiFi c.ssids run then
    let r := sendPost stillConnected c post
    { mode := LifecycleState.operating, send := some r.1, requests := r.2,
      suspended := true, portalStarted := false }
  else
    { mode := LifecycleState.configuring, send := none, requests := [],
      suspended := false, portalStarted := true }

/-- The inactivity threshold `TIMEOUT_MS = 5 * 60 * 1000`. -/
def TIMEOUT_MS : Nat := 5 * 60 * 1000

/-- The portal-mode state carried across `loop` iterations. -/
structure PortalState where
  lastRequestTime : Nat
deriving DecidableEq, Repr

/-- The value `millis() - lastRequestTime` as computed on 32-bit unsigned
arithmetic. -/
def elapsedMS (now last : Nat) : Nat :=
  ((now % 4294967296) + 4294967296 - (last % 4294967296)) % 4294967296

/-- One iteration of `loop`: `server.handleClient()` services a pending
request (every handler first sets `lastRequestTime = millis()`), then
the inactivity deadline is checked; the first component is true when
the device enters deep sleep. -/
def loopIter (s : PortalState) (now : Nat) (served : Bool) : Bool × PortalState :=
  let s2 := if served then { lastRequestTime := now } else s
  (decide (elapsedMS now s2.lastRequestTime > TIMEOUT_MS), s2)

/-! ### ConfigPortal: `handleSave`, `handleDelete`, `handleRoot` -/

/-- The in-memory mutation performed by `handleSave`: each form field
is applied only when non-empty (`if (ssid.length())`, etc.). -/
def applyForm (c : Config) (ssid pwd url body : String) : Config :=
  let c1 := if ssid.length != 0 then { c with ssids := c.ssids ++ [(ssid, pwd)] } else c
  let c2 := if url.length != 0 then { c1 with postUrl := url } else c1
  if body.length != 0 then { c2 with jsonBody := body } else c2

/-- The in-memory mutation performed by `handleDelete`:
`erase/remove_if` keeps exactly the entries whose ssid differs from
the target. -/
def deleteSSIDs (c : Config) (target : String) : Config :=
  { c with ssids := c.ssids.filter (fun p => p.1 != target) }

/-- Effect of one `saveConfig()` call on the outside world.  `openOk`
models whether `SPIFFS.open(CONFIG_FILE, "w")` yields a valid file:
when it does, the serialized config is written; when it does not, the
`printf` calls on the invalid handle write nothing.  `serialLog` is
what `saveConfig` prints on the serial console (nothing, in either
case), and the function returns void, so the caller learns nothing. -/
structure FSEffect where
  written : Option String
  serialLog : List String
deriving DecidableEq, Repr

/-- The durable-write side of `saveConfig()`. -/
def saveConfigFS (c : Config) (openOk : Bool) : FSEffect :=
  { written := if openOk then some (saveConfig c) else none, serialLog := [] }

/-- What a portal handler does: the new in-memory config, the file
effect, the HTTP response, whether `ESP.restart()` runs, and whether
`lastRequestTime` is reset. -/
structure ServeEffect where
  newConfig : Config
  eff : FSEffect
  httpStatus : Nat
  httpBody : String
  rebooted : Bool
  lastRequestReset : Bool
deriving DecidableEq, Repr

/-- Model of `handleSave` (POST /save): reset the inactivity timer, apply the
non-empty form fields, save, answer 200, flash, restart. -/
def handleSave (c : Config) (ssid pwd url body : String) (openOk : Bool) : ServeEffect :=
  let c2 := applyForm c ssid pwd url body
  { newConfig := c2, eff := saveConfigFS c2 openOk, httpStatus := 200,
    httpBody := "Saved. Rebooting...", rebooted := true, lastRequestReset := true }

/-- Model of `handleDelete` (GET /delete?ssid=...): reset the inactivity timer,
remove every entry with the target ssid, save, redirect. -/
def handleDelete (c : Config) (target : String) (openOk : Bool) : ServeEffect :=
  let c2 := deleteSSIDs c target
  { newConfig := c2, eff := saveConfigFS c2 openOk, httpStatus := 302,
    httpBody := "Deleted. Redirecting...", rebooted := false, lastRequestReset := true }

/-- The network identifiers `handleRoot` renders, in order. -/
def viewIdentifiers (c : Config) : List String := c.ssids.map Prod.fst

/-! ### Well-formedness predicates for the round-trip claims -/

/-- A line `loadConfig` skips: after trimming it starts with none of
the three markers. -/
def malformedLine (l : String) : Bool :=
  !(startsWithS (trimS l) "SSID:" || startsWithS (trimS l) "URL:" ||
    startsWithS (trimS l) "BODY:")

/-- The claim's well-formedness of a single field value: it contains
no newline and no text that parses as an `SSID:`/`URL:`/`BODY:` line
(no occurrence of any marker). -/
def fieldWF (s : String) : Prop :=
  '\n' ∉ s.data ∧ hasSub "SSID:".data s.data = false ∧
    hasSub "URL:".data s.data = false ∧ hasSub "BODY:".data s.data = false

/-- The claim's well-formedness of a configuration: every field value
is well-formed. -/
def configWF (c : Config) : Prop :=
  (∀ p ∈ c.ssids, fieldWF p.1 ∧ fieldWF p.2) ∧ fieldWF c.postUrl ∧ fieldWF c.jsonBody

instance (s : String) : Decidable (fieldWF s) := by unfold fieldWF; infer_instance

instance (c : Config) : Decidable (configWF c) := by unfold configWF; infer_instance

/-- Trim-stability: the save format survives `String::trim` on load.
Each stored line must equal its own trimmed form: identifiers, the
url and the body may not end in whitespace, and secrets may neither
begin nor end in whitespace. -/
def trimStableWF (c : Config) : Prop :=
  (∀ p ∈ c.ssids, trimS ("SSID:" ++ p.1) = "SSID:" ++ p.1 ∧ trimS p.2 = p.2) ∧
    trimS ("URL:" ++ c.postUrl) = "URL:" ++ c.postUrl ∧
    trimS ("BODY:" ++ c.jsonBody) = "BODY:" ++ c.jsonBody

instance (c : Config) : Decidable (trimStableWF c) := by
  unfold trimStableWF; infer_instance

/-! ### String and line lemmas -/

theorem data_mk (l : List Char) : (String.mk l).data = l := rfl

theorem mk_data (s : String) : String.mk s.data = s := by
  obtain ⟨l⟩ := s
  rfl

theorem data_append (a b : String) : (a ++ b).data = a.data ++ b.data := rfl

theorem rawLines_ne_nil (l : List Char) : rawLines l ≠ [] := by
  cases l with
  | nil => simp [rawLines]
  | cons a t => simp only [rawLines]; split <;> simp

theorem rawLines_append (x t : List Char) (hx : '\n' ∉ x) :
    rawLines (x ++ '\n' :: t) = x :: rawLines t := by
  induction x with
  | nil => simp [rawLines]
  | cons a x ih =>
    have ha : ¬a = '\n' := by
      intro h
      exact hx (h ▸ List.mem_cons_self a x)
    have hx' : '\n' ∉ x := fun h => hx (List.mem_cons_of_mem _ h)
    simp [rawLines, ha, ih hx']

theorem joinNL_append (a b : List (List Char)) :
    joinNL (a ++ b) = joinNL a ++ joinNL b := by
  induction a with
  | nil => rfl
  | cons l a ih => simp [joinNL, ih]

theorem joinNL_ne_nil (l : List Char) (ls : List (List Char)) :
    joinNL (l :: ls) ≠ [] := by
  simp [joinNL]

theorem rawLines_joinNL (ls : List (List Char)) (h : ∀ l ∈ ls, '\n' ∉ l) :
    rawLines (joinNL ls) = ls ++ [[]] := by
  induction ls with
  | nil => simp [joinNL, rawLines]
  | cons l ls ih =>
    have hl : '\n' ∉ l := h l (List.mem_cons_self _ _)
    have hls : ∀ x ∈ ls, '\n' ∉ x := fun x hx => h x (List.mem_cons_of_mem _ hx)
    simp [joinNL, rawLines_append _ _ hl, ih hls]

theorem getLast_joinNL (ls : List (List Char)) (h : ls ≠ []) :
    (joinNL ls).getLast? = some '\n' := by
  induction ls with
  | nil => exact absurd rfl h
  | cons l ls ih =>
    cases ls with
    | nil => simp [joinNL, List.getLast?_concat]
    | cons l2 ls2 =>
      have ih' := ih (by simp)
      simp only [joinNL] at ih' ⊢
      rw [show (l ++ '\n' :: (l2 ++ '\n' :: joinNL ls2)) =
            l ++ ['\n'] ++ (l2 ++ '\n' :: joinNL ls2) by simp]
      rw [List.getLast?_append, ih']
      rfl

theorem fileLines_joinNL (ls : List (List Char)) (h1 : ∀ l ∈ ls, '\n' ∉ l)
    (h2 : ls ≠ []) :
    fileLines (String.mk (joinNL ls)) = ls.map (fun l => String.mk l) := by
  unfold fileLines
  simp only [data_mk]
  rw [getLast_joinNL ls h2, if_pos rfl, rawLines_joinNL ls h1]
  simp

/-! ### The save format, line by line -/

theorem saveSSIDs_data (ss : List (String × String)) :
    (saveSSIDs ss).data = joinNL ((ssidLines ss).map String.data) := by
  induction ss with
  | nil => rfl
  | cons q ss ih =>
    obtain ⟨s, p⟩ := q
    simp [saveSSIDs, ssidLines, joinNL, data_append, ih]

theorem saveConfig_data (c : Config) :
    (saveConfig c).data = joinNL ((saveLines c).map String.data) := by
  simp [saveConfig, saveLines, data_append, saveSSIDs_data, List.map_append,
    joinNL_append, joinNL]

theorem saveConfig_eq_linesContent (c : Config) :
    saveConfig c = linesContent (saveLines c) := by
  have h := congrArg String.mk (saveConfig_data c)
  rwa [mk_data] at h

theorem saveLines_ne_nil (c : Config) : saveLines c ≠ [] := by
  simp [saveLines]

theorem fileLines_linesContent (ls : List String)
    (h1 : ∀ l ∈ ls, '\n' ∉ l.data) (h2 : ls ≠ []) :
    fileLines (linesContent ls) = ls := by
  unfold linesContent
  rw [fileLines_joinNL]
  · rw [List.map_map]
    exact List.map_id'' (fun s => mk_data s) ls
  · intro l hl
    obtain ⟨a, ha, rfl⟩ := List.mem_map.mp hl
    exact h1 a ha
  · simpa using h2

/-! ### Marker lines -/

theorem startsWith_self_append (p r : String) : startsWithS (p ++ r) p = true := by
  simp [startsWithS, data_append, List.isPrefixOf_iff_prefix]

theorem ssid_marker_starts (s : String) : startsWithS ("SSID:" ++ s) "SSID:" = true :=
  startsWith_self_append "SSID:" s

theorem url_marker_starts (s : String) : startsWithS ("URL:" ++ s) "URL:" = true :=
  startsWith_self_append "URL:" s

theorem body_marker_starts (s : String) : startsWithS ("BODY:" ++ s) "BODY:" = true :=
  startsWith_self_append "BODY:" s

theorem url_not_ssid (s : String) : startsWithS ("URL:" ++ s) "SSID:" = false := by
  obtain ⟨d⟩ := s
  rfl

theorem body_not_ssid (s : String) : startsWithS ("BODY:" ++ s) "SSID:" = false := by
  obtain ⟨d⟩ := s
  rfl

theorem body_not_url (s : String) : startsWithS ("BODY:" ++ s) "URL:" = false := by
  obtain ⟨d⟩ := s
  rfl

theorem substr_ssid (s : String) : substrFrom ("SSID:" ++ s) 5 = s := by
  obtain ⟨d⟩ := s
  rfl

theorem substr_url (s : String) : substrFrom ("URL:" ++ s) 4 = s := by
  obtain ⟨d⟩ := s
  rfl

theorem substr_body (s : String) : substrFrom ("BODY:" ++ s) 5 = s := by
  obtain ⟨d⟩ := s
  rfl

/-! ### Parsing lemmas -/

theorem parseLines_skip (l : String) (rest : List String) (c : Config)
    (h : malformedLine l = true) : parseLines (l :: rest) c = parseLines rest c := by
  simp only [malformedLine, Bool.not_eq_true', Bool.or_eq_false_iff] at h
  obtain ⟨⟨h1, h2⟩, h3⟩ := h
  rw [parseLines.eq_def]
  simp [h1, h2, h3]

theorem parseLines_all_skip (ls : List String) (c : Config)
    (h : ∀ l ∈ ls, malformedLine l = true) : parseLines ls c = c := by
  induction ls with
  | nil => rfl
  | cons l ls ih =>
    rw [parseLines_skip l ls c (h l (List.mem_cons_self _ _))]
    exact ih (fun x hx => h x (List.mem_cons_of_mem _ hx))

theorem parseLines_ssid (s p : String) (rest : List String) (c : Config)
    (hs : trimS ("SSID:" ++ s) = "SSID:" ++ s) (hp : trimS p = p) :
    parseLines (("SSID:" ++ s) :: p :: rest) c
      = parseLines rest { c with ssids := c.ssids ++ [(s, p)] } := by
  rw [parseLines.eq_def]
  simp [hs, hp, ssid_marker_starts, substr_ssid]

theorem parseLines_ssids (ss : List (String × String)) (tail : List String) (c : Config)
    (h : ∀ q ∈ ss, trimS ("SSID:" ++ q.1) = "SSID:" ++ q.1 ∧ trimS q.2 = q.2) :
    parseLines (ssidLines ss ++ tail) c
      = parseLines tail { c with ssids := c.ssids ++ ss } := by
  induction ss generalizing c with
  | nil => simp [ssidLines]
  | cons q ss ih =>
    obtain ⟨s, p⟩ := q
    have hq := h (s, p) (List.mem_cons_self _ _)
    have hss : ∀ q ∈ ss, trimS ("SSID:" ++ q.1) = "SSID:" ++ q.1 ∧ trimS q.2 = q.2 :=
      fun q hqm => h q (List.mem_cons_of_mem _ hqm)
    rw [ssidLines, List.cons_append, List.cons_append,
      parseLines_ssid s p _ c hq.1 hq.2, ih _ hss]
    simp

theorem parseLines_url_body (u b : String) (tail : List String) (c : Config)
    (hu : trimS ("URL:" ++ u) = "URL:" ++ u) (hb : trimS ("BODY:" ++ b) = "BODY:" ++ b) :
    parseLines (("URL:" ++ u) :: ("BODY:" ++ b) :: tail) c
      = parseLines tail { c with postUrl := u, jsonBody := b } := by
  rw [show parseLines (("URL:" ++ u) :: ("BODY:" ++ b) :: tail) c
      = parseLines (("BODY:" ++ b) :: tail) { c with postUrl := u } by
    rw [parseLines.eq_def]
    simp [hu, url_not_ssid, url_marker_starts, substr_url]]
  rw [parseLines.eq_def]
  simp [hb, body_not_ssid, body_not_url, body_marker_starts, substr_body]

/-! ### The save/load round trip -/

theorem string_eq_of_data (a b : String) (h : a.data = b.data) : a = b := by
  have h2 := congrArg String.mk h
  rwa [mk_data, mk_data] at h2

theorem no_nl_marker_append (m s : String) (hm : '\n' ∉ m.data)
    (hs : '\n' ∉ s.data) : '\n' ∉ (m ++ s).data := by
  simp only [data_append, List.mem_append]
  rintro (h | h)
  · exact hm h
  · exact hs h

theorem ssidLines_no_nl (ss : List (String × String))
    (hs : ∀ q ∈ ss, '\n' ∉ q.1.data ∧ '\n' ∉ q.2.data) :
    ∀ l ∈ ssidLines ss, '\n' ∉ l.data := by
  induction ss with
  | nil => simp [ssidLines]
  | cons q ss ih =>
    obtain ⟨s, p⟩ := q
    have hq := hs (s, p) (List.mem_cons_self _ _)
    intro l hl
    simp only [ssidLines, List.mem_cons] at hl
    rcases hl with rfl | rfl | hl
    · exact no_nl_marker_append "SSID:" s (by decide) hq.1
    · exact hq.2
    · exact ih (fun q hq2 => hs q (List.mem_cons_of_mem _ hq2)) l hl

theorem saveLines_no_nl (c : Config) (h : configWF c) :
    ∀ l ∈ saveLines c, '\n' ∉ l.data := by
  obtain ⟨hs, hu, hb⟩ := h
  intro l hl
  simp only [saveLines, List.mem_append, List.mem_cons, List.not_mem_nil, or_false] at hl
  rcases hl with hl | hl | hl
  · exact ssidLines_no_nl c.ssids (fun q hq => ⟨(hs q hq).1.1, (hs q hq).2.1⟩) l hl
  · exact hl ▸ no_nl_marker_append "URL:" c.postUrl (by decide) hu.1
  · exact hl ▸ no_nl_marker_append "BODY:" c.jsonBody (by decide) hb.1

theorem parse_save_tail (c : Config) (tail : List String) (hT : trimStableWF c) :
    parseLines (saveLines c ++ tail) emptyConfig
      = parseLines tail { ssids := c.ssids, postUrl := c.postUrl, jsonBody := c.jsonBody } := by
  obtain ⟨hss, hu, hb⟩ := hT
  rw [saveLines, List.append_assoc, parseLines_ssids c.ssids _ emptyConfig hss,
    List.cons_append, List.cons_append, List.nil_append,
    parseLines_url_body c.postUrl c.jsonBody tail _ hu hb]
  rfl

theorem loadConfig_saveConfig (c : Config) (hWF : configWF c) (hT : trimStableWF c) :
    loadConfig (some (saveConfig c)) = c := by
  show parseLines (fileLines (saveConfig c)) emptyConfig = c
  rw [saveConfig_eq_linesContent,
    fileLines_linesContent _ (saveLines_no_nl c hWF) (saveLines_ne_nil c)]
  have h := parse_save_tail c [] hT
  rw [List.append_nil] at h
  rw [h]
  rfl

theorem linesContent_append (a b : List String) :
    linesContent a ++ linesContent b = linesContent (a ++ b) := by
  apply string_eq_of_data
  simp [linesContent, data_append, data_mk, List.map_append, joinNL_append]

theorem loadConfig_saveConfig_junk (c : Config) (junk : List String)
    (hWF : configWF c) (hT : trimStableWF c)
    (hj : ∀ j ∈ junk, malformedLine j = true ∧ '\n' ∉ j.data) :
    loadConfig (some (saveConfig c ++ linesContent junk)) = c := by
  rw [saveConfig_eq_linesContent, linesContent_append]
  show parseLines (fileLines (linesContent (saveLines c ++ junk))) emptyConfig = c
  rw [fileLines_linesContent]
  · rw [parse_save_tail c junk hT,
      parseLines_all_skip junk _ (fun j hjm => (hj j hjm).1)]
  · intro l hl
    rcases List.mem_append.mp hl with hl | hl
    · exact saveLines_no_nl c hWF l hl
    · exact (hj l hl).2
  · intro hnil
    exact saveLines_ne_nil c (List.append_eq_nil.mp hnil).1

/-! ### The connection loop, characterised -/

theorem connectLoop_three (f : Nat → Bool) :
    connectLoop f 0 3 = if f 0 then (true, 1) else if f 1 then (true, 2)
      else if f 2 then (true, 3) else (false, 3) := by
  rcases h0 : f 0 <;> rcases h1 : f 1 <;> rcases h2 : f 2 <;>
    simp [connectLoop, h0, h1, h2]

theorem connect_none (f : Nat → Bool) (h : ∀ i, i < 3 → f i = false) :
    connectLoop f 0 3 = (false, 3) := by
  rw [connectLoop_three, if_neg, if_neg, if_neg]
  · simp [h 2 (by omega)]
  · simp [h 1 (by omega)]
  · simp [h 0 (by omega)]

theorem connect_first (f : Nat → Bool) (j : Nat) (hj : j < 3) (h : f j = true)
    (hk : ∀ k, k < j → f k = false) : connectLoop f 0 3 = (true, j + 1) := by
  interval_cases j
  · simp [connectLoop_three, h]
  · simp [connectLoop_three, hk 0 (by omega), h]
  · simp [connectLoop_three, hk 0 (by omega), hk 1 (by omega), h]

theorem connect_iff (f : Nat → Bool) :
    (connectLoop f 0 3).1 = true ↔ ∃ i, i < 3 ∧ f i = true := by
  constructor
  · intro h
    by_contra hno
    push_neg at hno
    have hall : ∀ i, i < 3 → f i = false := by
      intro i hi
      exact (Bool.not_eq_true (f i)) ▸ (hno i hi)
    rw [connect_none f hall] at h
    exact absurd h (by decide)
  · rintro ⟨i, hi, hfi⟩
    by_cases h0 : f 0 = true
    · simp [connectLoop_three, h0]
    · by_cases h1 : f 1 = true
      · rw [connectLoop_three, if_neg (by simpa using h0)]
        simp [h1]
      · by_cases h2 : f 2 = true
        · rw [connectLoop_three, if_neg, if_neg]
          · simp [h2]
          · simpa using h1
          · simpa using h0
        · exfalso
          interval_cases i <;> simp_all

/-! ### Claims -/

/-- C1: at boot, the lifecycle goes from Booting to Operating iff the
mode-select pin reads high (armed) and the network associator
succeeds; in every other case it goes to Configuring and the
configuration portal is started. -/
theorem c1_boot_mode_decision : ∀ (pin : Bool) (c : Config)
    (run : List (String × String) → Nat → Bool) (sc : Bool)
    (post : String → String → Int),
    ((setupRun pin c run sc post).mode = LifecycleState.operating ↔
      pin = true ∧ connectWiFi c.ssids run = true)
    ∧ ((setupRun pin c run sc post).mode = LifecycleState.configuring ↔
      ¬(pin = true ∧ connectWiFi c.ssids run = true))
    ∧ ((setupRun pin c run sc post).portalStarted = true ↔
      (setupRun pin c run sc post).mode = LifecycleState.configuring) := by
  intro pin c run sc post
  rcases hp : pin <;> rcases hw : connectWiFi c.ssids run <;>
    simp [setupRun, hp, hw]

/-- C1 witness: with the pin low the boot enters Configuring and
starts the portal. -/
theorem c1_boot_mode_decision_witness :
    (setupRun false { ssids := [("home", "pw")], postUrl := "u", jsonBody := "b" }
        (fun _ _ => true) true (fun _ _ => 200)).mode = LifecycleState.configuring :=
  (c1_boot_mode_decision false _ (fun _ _ => true) true (fun _ _ => 200)).2.1.mpr
    (by simp)

/-- C2: `connectWiFi` performs at most 3 `run()` attempts (the bound
is the literal 3, not configurable), succeeds exactly when one of the
first 3 attempts connects, returns at the first success, fails after
exhausting all 3 attempts, and with an empty candidate list (whose
attempts cannot connect) it terminates with failure. -/
theorem c2_bounded_association : ∀ (ssids : List (String × String))
    (run : List (String × String) → Nat → Bool),
    connectAttemptCount ssids run ≤ 3
    ∧ (connectWiFi ssids run = true ↔ ∃ i, i < 3 ∧ run ssids i = true)
    ∧ (∀ j, j < 3 → run ssids j = true → (∀ k, k < j → run ssids k = false) →
        connectWiFi ssids run = true ∧ connectAttemptCount ssids run = j + 1)
    ∧ ((∀ i, i < 3 → run ssids i = false) →
        connectWiFi ssids run = false ∧ connectAttemptCount ssids run = 3)
    ∧ (ssids = [] → (∀ i, run [] i = false) →
        connectWiFi ssids run = false) := by
  intro ssids run
  refine ⟨?_, connect_iff (run ssids), ?_, ?_, ?_⟩
  · rcases h0 : run ssids 0 <;> rcases h1 : run ssids 1 <;> rcases h2 : run ssids 2 <;>
      simp [connectAttemptCount, connectLoop_three, h0, h1, h2]
  · intro j hj h hk
    have := connect_first (run ssids) j hj h hk
    constructor
    · show (connectLoop (run ssids) 0 3).1 = true
      rw [this]
    · show (connectLoop (run ssids) 0 3).2 = j + 1
      rw [this]
  · intro h
    have := connect_none (run ssids) h
    constructor
    · show (connectLoop (run ssids) 0 3).1 = false
      rw [this]
    · show (connectLoop (run ssids) 0 3).2 = 3
      rw [this]
  · intro hnil h
    subst hnil
    have := connect_none (run []) (fun i _ => h i)
    show (connectLoop (run []) 0 3).1 = false
    rw [this]

/-- C2 witness: the second of three candidates connects on the second
attempt, so association succeeds within the bound, after exactly 2
attempts. -/
theorem c2_bounded_association_witness :
    connectWiFi [("a", "x"), ("b", "y"), ("c", "z")] (fun _ i => i == 1) = true
    ∧ connectAttemptCount [("a", "x"), ("b", "y"), ("c", "z")] (fun _ i => i == 1) = 2 :=
  (c2_bounded_association [("a", "x"), ("b", "y"), ("c", "z")] (fun _ i => i == 1)).2.2.1
    1 (by decide) (by decide) (by decide)

/-- C3: one `loop` iteration suspends exactly when no request was
serviced and the elapsed idle time since the last serviced request
exceeds the fixed 5-minute threshold; every serviced request resets
the idle timer to the current time; and for non-wrapped clocks the
elapsed idle time is real time since the last request. -/
theorem c3_inactivity_timeout : ∀ (s : PortalState) (now : Nat) (served : Bool),
    ((loopIter s now served).1 = true ↔
      served = false ∧ elapsedMS now s.lastRequestTime > TIMEOUT_MS)
    ∧ (served = true → (loopIter s now served).2.lastRequestTime = now)
    ∧ (∀ last, last ≤ now → now - last < 4294967296 →
        (elapsedMS now last > TIMEOUT_MS ↔ now - last > 300000)) := by
  intro s now served
  refine ⟨?_, ?_, ?_⟩
  · cases served
    · simp [loopIter]
    · simp only [loopIter, if_pos rfl]
      constructor
      · intro h
        exfalso
        have h2 : elapsedMS now now > TIMEOUT_MS := by simpa using h
        unfold elapsedMS TIMEOUT_MS at h2
        omega
      · rintro ⟨h, -⟩
        exact Bool.noConfusion h
  · intro h
    subst h
    rfl
  · intro last h1 h2
    unfold elapsedMS TIMEOUT_MS
    omega

/-- C3 witness: with the last request at millisecond 0, the iteration
at millisecond 300001 with no pending request suspends. -/
theorem c3_inactivity_timeout_witness :
    (loopIter { lastRequestTime := 0 } 300001 false).1 = true :=
  (c3_inactivity_timeout { lastRequestTime := 0 } 300001 false).1.mpr
    ⟨rfl, by decide⟩

/-- C4 counterexample: the configuration whose single network
identifier is `"a "` (trailing blank) is well-formed in the claim's
sense — no field contains a newline or any `SSID:`/`URL:`/`BODY:`
text — yet saving and loading trims the identifier to `"a"`, so
`load(save(C)) ≠ C`. -/
theorem c4_roundtrip_counterexample :
    configWF { ssids := [("a ", "p")], postUrl := "u", jsonBody := "b" }
    ∧ loadConfig (some (saveConfig { ssids := [("a ", "p")], postUrl := "u", jsonBody := "b" }))
      ≠ { ssids := [("a ", "p")], postUrl := "u", jsonBody := "b" } := by
  constructor
  · decide
  · decide

/-- C4 (amended): for every configuration whose field values are
well-formed (no newline and no `SSID:`/`URL:`/`BODY:` text in any
identifier, secret, endpoint or payload) and additionally survive the
loader's trimming (identifiers, the endpoint and the payload end in no
whitespace; secrets neither begin nor end in whitespace), saving and
then loading yields the configuration back unchanged. -/
theorem c4_save_load_roundtrip (c : Config) (h1 : configWF c) (h2 : trimStableWF c) :
    loadConfig (some (saveConfig c)) = c :=
  loadConfig_saveConfig c h1 h2

/-- C4 witness: a two-network configuration round-trips. -/
theorem c4_save_load_roundtrip_witness :
    loadConfig
        (some (saveConfig
          { ssids := [("home", "pass123"), ("work", "pw2")], postUrl := "http://e.com/n", jsonBody := "x1" }))
      = { ssids := [("home", "pass123"), ("work", "pw2")], postUrl := "http://e.com/n", jsonBody := "x1" } :=
  c4_save_load_roundtrip _ (by decide) (by decide)

/-- C5: when a boot reaches Operating, the device issues at most one
outbound request — exactly the single POST of the payload to the
endpoint when it is still associated and the endpoint is non-empty,
and nothing (Skipped) otherwise — and then suspends unconditionally. -/
theorem c5_operating_single_post : ∀ (pin : Bool) (c : Config)
    (run : List (String × String) → Nat → Bool) (sc : Bool)
    (post : String → String → Int),
    (setupRun pin c run sc post).mode = LifecycleState.operating →
    (setupRun pin c run sc post).requests.length ≤ 1
    ∧ ((setupRun pin c run sc post).requests = [(c.postUrl, c.jsonBody)] ↔
        sc = true ∧ c.postUrl.length ≠ 0)
    ∧ (¬(sc = true ∧ c.postUrl.length ≠ 0) →
        (setupRun pin c run sc post).send = some SendResult.skipped
        ∧ (setupRun pin c run sc post).requests = [])
    ∧ (setupRun pin c run sc post).suspended = true := by
  intro pin c run sc post hmode
  have hcond : (pin && connectWiFi c.ssids run) = true := by
    cases h : (pin && connectWiFi c.ssids run)
    · rw [setupRun] at hmode
      simp [h] at hmode
    · rfl
  rcases hsc : sc <;> rcases hnu : (c.postUrl.length != 0) <;>
    simp_all [setupRun, hcond, sendPost, bne_iff_ne]

/-- C5 witness: associated with a non-empty endpoint, exactly the one
configured POST is issued. -/
theorem c5_operating_single_post_witness :
    (setupRun true
        { ssids := [("home", "pw")], postUrl := "http://e.com/n", jsonBody := "x1" }
        (fun _ _ => true) true (fun _ _ => 200)).requests
      = [("http://e.com/n", "x1")] :=
  ((c5_operating_single_post true _ (fun _ _ => true) true (fun _ _ => 200))
      (by decide)).2.1.mpr ⟨rfl, by decide⟩

theorem string_length_bne (s : String) : ((s.length != 0) = true) ↔ s ≠ "" := by
  rw [bne_iff_ne]
  constructor
  · intro h hs
    subst hs
    exact h String.length_empty
  · intro h hlen
    exact h (String.ext (List.length_eq_zero.mp hlen))

/-- C6 counterexample: a mutation through the portal whose durable
write fails (the file does not open) logs nothing, reports success to
the caller ("Saved. Rebooting...", status 200) and still reboots: the
mutation is considered complete without the durable write succeeding
and without the caller being informed of the failure. -/
theorem c6_mutation_counterexample :
    (handleSave emptyConfig "net" "pw" "" "" false).eff.written = none
    ∧ (handleSave emptyConfig "net" "pw" "" "" false).eff.serialLog = []
    ∧ (handleSave emptyConfig "net" "pw" "" "" false).httpStatus = 200
    ∧ (handleSave emptyConfig "net" "pw" "" "" false).httpBody = "Saved. Rebooting..."
    ∧ (handleSave emptyConfig "net" "pw" "" "" false).rebooted = true := by
  refine ⟨rfl, rfl, rfl, rfl, rfl⟩

/-- C6 (amended): every portal mutation applies its change in memory
and immediately attempts the durable write, but a failed durable
write is silent — nothing is logged, the caller receives the same
success response, and the in-memory state remains applied with no
rollback. -/
theorem c6_silent_persistence_failure : ∀ (c : Config)
    (ssid pwd url body target : String) (openOk : Bool),
    (handleSave c ssid pwd url body openOk).eff.serialLog = []
    ∧ (handleSave c ssid pwd url body openOk).newConfig = applyForm c ssid pwd url body
    ∧ (handleSave c ssid pwd url body openOk).httpBody = "Saved. Rebooting..."
    ∧ (openOk = true → (handleSave c ssid pwd url body openOk).eff.written
        = some (saveConfig (applyForm c ssid pwd url body)))
    ∧ (openOk = false → (handleSave c ssid pwd url body openOk).eff.written = none)
    ∧ (handleDelete c target openOk).eff.serialLog = []
    ∧ (handleDelete c target openOk).newConfig = deleteSSIDs c target
    ∧ (openOk = false → (handleDelete c target openOk).eff.written = none) := by
  intro c ssid pwd url body target openOk
  rcases openOk <;> simp [handleSave, handleDelete, saveConfigFS]

/-- C6 witness: with a failing durable write, the delete handler's
file effect is nothing. -/
theorem c6_silent_persistence_failure_witness :
    (handleDelete emptyConfig "net" false).eff.written = none :=
  (c6_silent_persistence_failure emptyConfig "a" "b" "c" "d" "net" false).2.2.2.2.2.2.2 rfl

/-- C7: the portal's save operation updates each field only when the
caller supplies a non-empty value: an empty identifier leaves the
network list unchanged, an empty endpoint or payload field leaves that
field at its prior value (never clears it), and supplying only a
payload changes only the payload. -/
theorem c7_empty_fields_unchanged : ∀ (c : Config) (ssid pwd url body : String),
    (ssid = "" → (applyForm c ssid pwd url body).ssids = c.ssids)
    ∧ (url = "" → (applyForm c ssid pwd url body).postUrl = c.postUrl)
    ∧ (body = "" → (applyForm c ssid pwd url body).jsonBody = c.jsonBody)
    ∧ (body ≠ "" → applyForm c "" "" "" body = { c with jsonBody := body }) := by
  intro c ssid pwd url body
  refine ⟨?_, ?_, ?_, ?_⟩
  · intro h
    subst h
    simp only [applyForm]
    split <;> split <;> (try split) <;> simp_all
  · intro h
    subst h
    simp only [applyForm]
    split <;> split <;> (try split) <;> simp_all
  · intro h
    subst h
    simp only [applyForm]
    split <;> split <;> (try split) <;> simp_all
  · intro h
    have hb : (body.length != 0) = true := (string_length_bne body).mpr h
    simp [applyForm, hb]

/-- C7 witness: saving with only a payload supplied changes only the
payload and keeps the endpoint. -/
theorem c7_empty_fields_unchanged_witness :
    applyForm { ssids := [("home", "pw")], postUrl := "http://old", jsonBody := "o" } "" "" "" "x1"
      = { ssids := [("home", "pw")], postUrl := "http://old", jsonBody := "x1" } :=
  (c7_empty_fields_unchanged
      { ssids := [("home", "pw")], postUrl := "http://old", jsonBody := "o" }
      "" "" "" "x1").2.2.2 (by decide)

/-- C8: deleting an identifier removes every entry whose identifier
matches exactly, whatever its multiplicity, keeps every other entry,
leaves no occurrence of the identifier in a subsequent view, and the
resulting configuration is immediately written to durable storage. -/
theorem c8_delete_removes_all : ∀ (c : Config) (target : String) (openOk : Bool),
    (∀ p ∈ (handleDelete c target openOk).newConfig.ssids, p.1 ≠ target)
    ∧ target ∉ viewIdentifiers (handleDelete c target openOk).newConfig
    ∧ (∀ p ∈ c.ssids, p.1 ≠ target → p ∈ (handleDelete c target openOk).newConfig.ssids)
    ∧ (openOk = true → (handleDelete c target openOk).eff.written
        = some (saveConfig (handleDelete c target openOk).newConfig)) := by
  intro c target openOk
  refine ⟨?_, ?_, ?_, ?_⟩
  · intro p hp
    have := (List.mem_filter.mp hp).2
    simpa [bne_iff_ne] using this
  · intro hmem
    obtain ⟨p, hp, hp1⟩ := List.mem_map.mp hmem
    have := (List.mem_filter.mp hp).2
    rw [hp1] at this
    simp at this
  · intro p hp hne
    exact List.mem_filter.mpr ⟨hp, by simpa [bne_iff_ne] using hne⟩
  · intro h
    subst h
    rfl

/-- C8 witness: deleting `"dup"` from a configuration holding it
twice leaves no entry with that identifier and keeps the others. -/
theorem c8_delete_removes_all_witness :
    "dup" ∉ viewIdentifiers
      (handleDelete
        { ssids := [("dup", "p1"), ("keep", "p2"), ("dup", "p3")], postUrl := "u", jsonBody := "b" }
        "dup" true).newConfig :=
  (c8_delete_removes_all
      { ssids := [("dup", "p1"), ("keep", "p2"), ("dup", "p3")], postUrl := "u", jsonBody := "b" }
      "dup" true).2.1

/-- C9: the loader never aborts — an absent record is the defined
first-run condition yielding the empty configuration, any malformed
line is skipped, and a record whose valid content is followed by
arbitrary malformed junk still yields every valid entry. -/
theorem c9_load_robustness :
    loadConfig none = emptyConfig
    ∧ (∀ (l : String) (rest : List String) (c : Config),
        malformedLine l = true → parseLines (l :: rest) c = parseLines rest c)
    ∧ (∀ (c : Config) (junk : List String), configWF c → trimStableWF c →
        (∀ j ∈ junk, malformedLine j = true ∧ '\n' ∉ j.data) →
        loadConfig (some (saveConfig c ++ linesContent junk)) = c) :=
  ⟨rfl, parseLines_skip, loadConfig_saveConfig_junk⟩

/-- C9 witness: a well-formed save followed by corrupt trailing lines
still loads back the saved configuration. -/
theorem c9_load_robustness_witness :
    loadConfig
        (some (saveConfig { ssids := [("n1", "p1")], postUrl := "http://u", jsonBody := "bb" }
          ++ linesContent ["garbage", "SSID", ""]))
      = { ssids := [("n1", "p1")], postUrl := "http://u", jsonBody := "bb" } :=
  c9_load_robustness.2.2 _ ["garbage", "SSID", ""] (by decide) (by decide) (by decide)

/-- C10: every POST /save request — whatever form fields it carries,
including a request that only adds a network and a request whose
fields are all empty — rewrites the persisted configuration and
reboots the device; no /save path skips the restart. -/
theorem c10_save_always_reboots : ∀ (c : Config) (ssid pwd url body : String) (openOk : Bool),
    (handleSave c ssid pwd url body openOk).rebooted = true
    ∧ (openOk = true → (handleSave c ssid pwd url body openOk).eff.written
        = some (saveConfig (handleSave c ssid pwd url body openOk).newConfig))
    ∧ (handleSave c "" "" "" "" openOk).newConfig = c
    ∧ (handleSave c "" "" "" "" openOk).rebooted = true := by
  intro c ssid pwd url body openOk
  refine ⟨rfl, ?_, ?_, rfl⟩
  · intro h
    subst h
    rfl
  · show applyForm c "" "" "" "" = c
    rfl

/-- C10 witness: an all-empty save request still rewrites the file
with the unchanged configuration and reboots. -/
theorem c10_save_always_reboots_witness :
    (handleSave { ssids := [("home", "pw")], postUrl := "u", jsonBody := "b" } "" "" "" "" true).eff.written
      = some (saveConfig { ssids := [("home", "pw")], postUrl := "u", jsonBody := "b" }) :=
  (c10_save_always_reboots
      { ssids := [("home", "pw")], postUrl := "u", jsonBody := "b" } "" "" "" "" true).2.1 rfl

end IoTButton
